import Mathlib

/-!
Verification of the two operational scripts in this repository against their
specification.  The Python sources are shallowly embedded: each script becomes
a pure Lean function over an explicit description of its inputs and of the
outcomes of its external calls, and the claimed properties become theorems
about those functions.

`PythCompare` embeds `scripts/pyth_compare.py` (the Oracle Comparator);
`Redeem` embeds `scripts/redeem.py` (the Redemption Invoker).
-/

namespace PythCompare

/--
One record of the `/tmp/pyth_samples.json` input array.  A field is `none`
when the corresponding JSON key is missing (a lookup of a missing key raises
`KeyError` in the source).  The two oracle fetches `pp ts` and `pp (ts+300)`
(source lines 23 and 25) are external HTTP calls; their outcomes are part of
the sample's description here: `po`/`pc` is `none` when the corresponding
fetch raises (network error, parse error), and `some q` when it returns the
extracted price `q`.  Prices are modelled as rationals.
-/
structure Sample where
  ts : Option Int
  bo : Option ℚ
  bc : Option ℚ
  bd : Option String
  bf : Option ℚ
  po : Option ℚ
  pc : Option ℚ
deriving DecidableEq

/--
Source line 27: `pd = 'UP' if pc > po else 'DN'`.  The computed oracle
direction string: `"UP"` on a strict rise, `"DN"` otherwise (ties included).
-/
def direction (po pc : ℚ) : String :=
  if pc > po then "UP" else "DN"

/--
The data content of one per-sample output line (source lines 33–36).  The
source renders these fields into a formatted string (status glyph, UTC
date/time from `ts`, the two percentage moves, the fee figure, the price
gap); the model records the same values in the same order, leaving out only
the textual formatting, which no claim concerns.
-/
structure DisplayLine where
  ok : Bool
  ts : Int
  pythPct : ℚ
  pd : String
  binPct : ℚ
  bd : String
  bf : ℚ
  gap : ℚ
deriving DecidableEq

/--
The mutable state of the sample loop: the match counter `m`, the mismatch
counter `x`, the in-memory `results` list (source lines 17–18), and the
indices printed by the `except` clause as `ERR i` (source line 40), recording
which iterations raised.
-/
structure LoopState where
  m : Nat
  x : Nat
  results : List DisplayLine
  errLog : List Nat
deriving DecidableEq

/-- Record that iteration `i` raised and was caught by the except clause. -/
def LoopState.logErr (st : LoopState) (i : Nat) : LoopState :=
  { st with errLog := st.errLog ++ [i] }

/--
Construction and recording of the display line (source lines 31–38), run
after the counters were already updated.  The f-string of lines 33–36
looks up `s['bc']`, `s['bo']` and `s['bf']` and divides by `po` and by
`bo`, so it raises — landing in the except clause with the counter update
already applied — when one of those keys is missing or a divisor is zero;
otherwise the line is printed and appended to `results`.
-/
def buildLine (i : Nat) (ts : Int) (ok : Bool) (po pc : ℚ) (pd bd : String)
    (st1 : LoopState) (s : Sample) : LoopState :=
  match s.bc, s.bo, s.bf with
  | some bc, some bo, some bf =>
    if po = 0 ∨ bo = 0 then st1.logErr i
    else
      { st1 with results := st1.results ++
          [⟨ok, ts, (pc - po) / po * 100, pd, (bc - bo) / bo * 100, bd, bf, po - bo⟩] }
  | _, _, _ => st1.logErr i

/--
The `try` body of iteration `i` of the sample loop (source lines 22–40),
given the already-extracted timestamp `ts`.  Each step that can raise is a
`match`: a failing step jumps to the `except` clause, which logs the index
and keeps whatever mutations were already made.  Step order follows the
source exactly: fetch `po`, fetch `pc`, compute `pd`, look up `s['bd']` and
compare, increment `m` or `x`, then build the display line — whose
construction needs `bc`, `bo`, `bf` present and divides by `po` and by `bo`,
so it raises (after the counter increment) when a key is missing or a
divisor is zero.
-/
def trySteps (i : Nat) (ts : Int) (st : LoopState) (s : Sample) : LoopState :=
  match s.po with
  | none => st.logErr i
  | some po =>
    match s.pc with
    | none => st.logErr i
    | some pc =>
      let pd := direction po pc
      match s.bd with
      | none => st.logErr i
      | some bd =>
        let ok := pd == bd
        let st1 := if ok then { st with m := st.m + 1 } else { st with x := st.x + 1 }
        buildLine i ts ok po pc pd bd st1 s

/--
The sample loop (source lines 20–40).  `ts = s['ts']` is evaluated outside
the `try` (line 21), so a sample without a `ts` key raises an uncaught
`KeyError` and aborts the whole run: that is the `none` result.  Otherwise
each iteration runs `trySteps` and the loop continues with the next sample.
-/
def runLoop : Nat → LoopState → List Sample → Option LoopState
  | _, st, [] => some st
  | i, st, s :: rest =>
    match s.ts with
    | none => none
    | some ts => runLoop (i + 1) (trySteps i ts st s) rest

/-- The loop's initial state: `m = 0; x = 0; results = []` (source lines 17–18). -/
def initState : LoopState := ⟨0, 0, [], []⟩

/--
The final summary (source lines 42–45): `t = m + x`, then the percentage
`m/t*100` — line 44 raises `ZeroDivisionError` when `t = 0`, modelled as
`none`, which aborts the run before anything further (the baseline figure of
line 45 and the report file of lines 48–52 are never produced).  On success
the pair is the current rate and the cumulative rate with the fixed 10/10
historical baseline.
-/
def summary (st : LoopState) : Option (ℚ × ℚ) :=
  let t := st.m + st.x
  if t = 0 then none
  else some (((st.m : ℚ) / (t : ℚ)) * 100, (((st.m : ℚ) + 10) / ((t : ℚ) + 10)) * 100)

/--
The whole Oracle Comparator run: the sample loop followed by the summary.
`none` means the run aborted with an uncaught exception (missing `ts` key,
or division by zero in the summary).
-/
def runProgram (samples : List Sample) : Option (LoopState × ℚ × ℚ) :=
  match runLoop 0 initState samples with
  | none => none
  | some st =>
    match summary st with
    | none => none
    | some p => some (st, p)

/--
The exact price the spec prescribes for an oracle response carrying integer
mantissa `mant` and power-of-ten exponent `expo`: `mant × 10^expo` with
exact semantics.  The source (line 12) computes
`int(d['price']['price']) * (10 ** d['price']['expo'])`, which coincides
with this value only when `expo ≥ 0`: for a negative `expo`, Python's
`10 ** expo` is a binary floating-point number, and so is the product.
-/
def exactPrice (mant expo : ℤ) : ℚ := (mant : ℚ) * (10 : ℚ) ^ expo

/--
Dyadic rationals: exactly the finite values an IEEE-754 binary float can
take.  Whenever the source evaluates `pp` with a negative exponent, its
result is a Python `float` and hence, when finite, dyadic.
-/
def IsDyadic (q : ℚ) : Prop := ∃ (m : ℤ) (e : ℕ), q = (m : ℚ) / 2 ^ e

/--
Whether iteration `i` for this sample reaches the counter update of source
lines 29–30: both oracle fetches return and the `s['bd']` lookup succeeds.
Everything that can raise earlier than the update is exactly these three
steps.
-/
def reachesCount (s : Sample) : Bool := s.po.isSome && s.pc.isSome && s.bd.isSome

/--
Whether this sample is counted as a match (`m += 1`, source line 29): the
counter update is reached and the computed direction string equals the
sample's `bd` field exactly.
-/
def isMatch (s : Sample) : Bool :=
  match s.po, s.pc, s.bd with
  | some po, some pc, some bd => direction po pc == bd
  | _, _, _ => false

/-- A concrete sample used by the witness of C1: a rise matching `bd = "UP"`. -/
def sampleUp : Sample := ⟨some 0, none, none, some "UP", none, some 100, some 101⟩

end PythCompare

namespace Redeem

/-- A printed JSON object, modelled as its field list in construction order. -/
abbrev JsonObj := List (String × String)

/-- The eight required credential names (source lines 42–45). -/
def requiredVars : List String :=
  ["POLY_PRIVATE_KEY", "POLY_API_KEY", "POLY_API_SECRET", "POLY_PASSPHRASE",
   "POLY_PROXY_ADDRESS", "BUILDER_API_KEY", "BUILDER_SECRET", "BUILDER_PASSPHRASE"]

/--
Truthiness of `os.environ.get(v)` as tested by `not os.environ.get(v)`
(source line 46): an absent variable (`None`) and an empty string are both
falsy, so both count as missing.
-/
def truthy : Option String → Bool
  | none => false
  | some s => s != ""

/--
Outcomes of the external calls made inside the main `try` block, one field
per call site, in call order.  `Except.error e` models the call raising an
exception whose text is `e`; `Except.ok` its return value.
`setup` covers the SDK imports, the two client constructions and the
service construction (source lines 53–87); `isResolved` is
`service.is_condition_resolved` (line 91); `redeemable` is
`service.get_redeemable_index_and_balance` (line 104), a sequence of
(index, balance) pairs; `redeemResult` is `service.redeem` (line 114), a
mapping whose values are recorded here already rendered by `str`.
`tbText` is the text `traceback.format_exc()` would produce in the outer
except clause (line 129).
-/
structure World where
  setup : Except String Unit
  isResolved : Except String Bool
  redeemable : Except String (List (Nat × Int))
  redeemResult : Except String (List (String × String))
  tbText : String

/--
The dictionary access `str(redeem_result.get(k, ""))` (source lines
118–120): the stored value if the key is present, the empty string
otherwise.
-/
def dictGet (d : List (String × String)) (k : String) : String :=
  match d.find? (fun p => p.1 == k) with
  | some p => p.2
  | none => ""

/--
Step 3 of the script (source lines 114–123) together with the outer except
clause as it applies to a raising redeem call (lines 125–132): on success,
the SUCCESS object with the three transaction fields read via
`.get(_, "")`, and the implicit exit code 0; on an exception, the ERROR
object with message and traceback, and exit code 1.
-/
def redeemStep (w : World) : List JsonObj × Nat :=
  match w.redeemResult with
  | .error e => ([[("status", "ERROR"), ("message", e), ("traceback", w.tbText)]], 1)
  | .ok d =>
    ([[("status", "SUCCESS"),
       ("tx_id", dictGet d "transactionID"),
       ("tx_hash", dictGet d "transactionHash"),
       ("state", dictGet d "state"),
       ("message", "Redeem executed successfully")]], 0)

/--
The `main` function of the Redemption Invoker (source lines 32–132), as a
function of the argument vector (`argv.head?` is the script name), the
environment, and the external-call outcomes.  Result: the list of JSON
objects printed to stdout, and the process exit code.  `condition_id`
(`argv[1]`) is passed only to the external calls, whose outcomes `w`
already records, and `neg_risk` (`"--neg-risk" in sys.argv`, line 39) is
assigned but never read afterwards, so neither appears further in the
model.  Inside the `try`, the inner `sys.exit(0)` calls raise `SystemExit`,
which `except Exception` does not catch, so those exits propagate.
-/
def main (argv : List String) (env : String → Option String) (w : World) :
    List JsonObj × Nat :=
  if argv.length < 2 then
    ([[("status", "ERROR"), ("message", "Usage: redeem.py <condition_id> [--neg-risk]")]], 1)
  else
    let missing := requiredVars.filter (fun v => !truthy (env v))
    if missing ≠ [] then
      ([[("status", "ERROR"),
         ("message", "Missing env vars: " ++ String.intercalate ", " missing)]], 1)
    else
      match w.setup with
      | .error e => ([[("status", "ERROR"), ("message", e), ("traceback", w.tbText)]], 1)
      | .ok _ =>
        match w.isResolved with
        | .error e =>
          ([[("status", "ERROR"), ("message", "Failed to check resolution: " ++ e)]], 0)
        | .ok false =>
          ([[("status", "NOT_RESOLVED"), ("message", "Condition not yet resolved")]], 0)
        | .ok true =>
          match w.redeemable with
          | .ok r =>
            if r.isEmpty || r.all (fun p => p.2 == 0) then
              ([[("status", "NO_BALANCE"), ("message", "No redeemable balance")]], 0)
            else redeemStep w
          | .error _ => redeemStep w

/-- A concrete world used by witnesses: everything succeeds, one unit of balance. -/
def w0 : World :=
  ⟨.ok (), .ok true, .ok [(0, 1)], .ok [("transactionID", "0xt"), ("transactionHash", "0xh"), ("state", "MINED")], "tb"⟩

/-- An environment with every credential present, used by witnesses. -/
def envAll : String → Option String := fun _ => some "x"

/-- A concrete world whose resolution-status query raises. -/
def wRes : World := ⟨.ok (), .error "boom", .ok [(0, 1)], .ok [], "tb"⟩

/-- A concrete world whose SDK setup (imports / client construction) raises. -/
def wSetup : World := ⟨.error "imp", .ok true, .ok [(0, 1)], .ok [], "tb"⟩

/-- A concrete world where the balance query and the redeem call both raise. -/
def wRedeem : World := ⟨.ok (), .ok true, .error "balfail", .error "redeemfail", "tb"⟩

/-- A concrete world whose balance query returns only zero balances. -/
def wZero : World := ⟨.ok (), .ok true, .ok [(0, 0), (1, 0)], .ok [], "tb"⟩

/-- A concrete world whose balance query raises but whose redeem call returns. -/
def wBalErr : World := ⟨.ok (), .ok true, .error "balfail", .ok [("transactionID", "0xt")], "tb"⟩

/-- A concrete world where redeem returns a mapping with none of the three keys. -/
def wEmptyMap : World := ⟨.ok (), .ok true, .error "balfail", .ok [], "tb"⟩

end Redeem

namespace PythCompare

/-- Building the display line never changes the match counter. -/
theorem buildLine_m (i : Nat) (ts : Int) (ok : Bool) (po pc : ℚ) (pd bd : String)
    (st1 : LoopState) (s : Sample) : (buildLine i ts ok po pc pd bd st1 s).m = st1.m := by
  unfold buildLine
  cases s.bc <;> cases s.bo <;> cases s.bf <;> try simp [LoopState.logErr]
  split <;> simp [LoopState.logErr]

/-- Building the display line never changes the mismatch counter. -/
theorem buildLine_x (i : Nat) (ts : Int) (ok : Bool) (po pc : ℚ) (pd bd : String)
    (st1 : LoopState) (s : Sample) : (buildLine i ts ok po pc pd bd st1 s).x = st1.x := by
  unfold buildLine
  cases s.bc <;> cases s.bo <;> cases s.bf <;> try simp [LoopState.logErr]
  split <;> simp [LoopState.logErr]

/--
The match counter after one iteration: incremented exactly when the
iteration reaches the counter update and the computed direction equals
`bd`; failures later in the iteration (display-line construction) do not
undo the increment.
-/
theorem trySteps_m (i : Nat) (ts : Int) (st : LoopState) (s : Sample) :
    (trySteps i ts st s).m = if isMatch s then st.m + 1 else st.m := by
  unfold trySteps isMatch
  cases s.po <;> cases s.pc <;> cases s.bd <;> simp [LoopState.logErr, buildLine_m]
  split <;> simp

/--
The mismatch counter after one iteration: incremented exactly when the
iteration reaches the counter update and the computed direction differs
from `bd`.
-/
theorem trySteps_x (i : Nat) (ts : Int) (st : LoopState) (s : Sample) :
    (trySteps i ts st s).x = if reachesCount s && !isMatch s then st.x + 1 else st.x := by
  unfold trySteps isMatch reachesCount
  cases s.po <;> cases s.pc <;> cases s.bd <;> simp [LoopState.logErr, buildLine_x]
  split <;> simp

/--
Accounting over a whole batch whose samples all carry a `ts` key: the loop
finishes (no abort), the final match counter adds the number of samples
counted as matches, and the final mismatch counter adds the number of
samples that reach the counter update but do not match.
-/
theorem runLoop_counts (samples : List Sample) :
    ∀ (i : Nat) (st : LoopState), (∀ s ∈ samples, s.ts.isSome = true) →
      ∃ st2, runLoop i st samples = some st2 ∧
        st2.m = st.m + samples.countP isMatch ∧
        st2.x = st.x + samples.countP (fun s => reachesCount s && !isMatch s) := by
  induction samples with
  | nil => exact fun i st _ => ⟨st, rfl, by simp [runLoop], by simp [runLoop]⟩
  | cons s rest ih =>
    intro i st h
    obtain ⟨ts, hts⟩ := Option.isSome_iff_exists.mp (h s (by simp))
    obtain ⟨st2, h1, h2, h3⟩ :=
      ih (i + 1) (trySteps i ts st s) (fun u hu => h u (by simp [hu]))
    refine ⟨st2, ?_, ?_, ?_⟩
    · simpa [runLoop, hts] using h1
    · rw [h2, trySteps_m, List.countP_cons]
      cases hm : isMatch s <;> simp [hm]
      omega
    · rw [h3, trySteps_x, List.countP_cons]
      cases hm : reachesCount s && !isMatch s <;> simp [hm]
      omega

/-- A sample that does not reach the counter update is not counted as a match. -/
theorem isMatch_eq_false (s : Sample) (h : reachesCount s = false) : isMatch s = false := by
  rcases s with ⟨ts, bo, bc, bd, bf, po, pc⟩
  cases po <;> cases pc <;> cases bd <;> simp_all [isMatch, reachesCount]

/--
C1 (amended): for a sample whose two price fetches and whose `bd` lookup
succeed, the computed oracle direction string is `"UP"` if the closing
price strictly exceeds the opening price and `"DN"` otherwise (an
equal-price tie classifies as `"DN"`), and this string is what is compared
against the sample's reference direction field `bd`: the match counter is
incremented exactly when it equals `bd`, the mismatch counter exactly when
it differs.
-/
theorem C1_direction_theorem (po pc : ℚ) (i : Nat) (ts : Int) (st : LoopState)
    (s : Sample) (bd : String)
    (hpo : s.po = some po) (hpc : s.pc = some pc) (hbd : s.bd = some bd) :
    (po < pc → direction po pc = "UP") ∧
    (pc ≤ po → direction po pc = "DN") ∧
    ((trySteps i ts st s).m = st.m + 1 ↔ direction po pc = bd) ∧
    ((trySteps i ts st s).x = st.x + 1 ↔ direction po pc ≠ bd) := by
  have hm : isMatch s = (direction po pc == bd) := by
    rcases s with ⟨ts', bo, bc, bd', bf, po', pc'⟩
    simp only [Sample.po] at hpo
    simp only [Sample.pc] at hpc
    simp only [Sample.bd] at hbd
    subst hpo; subst hpc; subst hbd
    simp [isMatch]
  have hrc : reachesCount s = true := by
    simp [reachesCount, hpo, hpc, hbd]
  refine ⟨fun h => by simp [direction, h], fun h => by simp [direction, not_lt.mpr h], ?_, ?_⟩
  · rw [trySteps_m, hm]
    by_cases hd : direction po pc = bd
    · simp [hd]
    · simp [hd]
  · rw [trySteps_x, hrc, hm]
    by_cases hd : direction po pc = bd
    · simp [hd]
    · simp [hd]

/--
C1 counterexample: the claim states the computed direction string is
`"DOWN"` when the closing price does not exceed the opening price, but the
source (line 27) produces `"DN"`, both for a strict fall and for an
equal-price tie.
-/
theorem C1_direction_counterexample :
    direction 100 99 = "DN" ∧ direction 100 99 ≠ "DOWN" ∧
    direction 100 100 = "DN" ∧ direction 100 100 ≠ "DOWN" := by
  decide

/-- Witness for C1 at a concrete sample. -/
theorem C1_direction_theorem_witness :
    direction 100 101 = "UP" ∧
    ((trySteps 0 0 initState sampleUp).m = initState.m + 1 ↔ direction 100 101 = "UP") ∧
    ((trySteps 0 0 initState sampleUp).x = initState.x + 1 ↔ direction 100 101 ≠ "UP") :=
  ⟨(C1_direction_theorem 100 101 0 0 initState sampleUp "UP" rfl rfl rfl).1 (by norm_num),
   (C1_direction_theorem 100 101 0 0 initState sampleUp "UP" rfl rfl rfl).2.2.1,
   (C1_direction_theorem 100 101 0 0 initState sampleUp "UP" rfl rfl rfl).2.2.2⟩

/--
C2: the spec demands the exact price `mantissa × 10^exponent` with exact
decimal/integer semantics, but for a negative exponent the source (line 12)
computes `int(...) * (10 ** expo)` where `10 ** expo` — and hence the
product — is a binary floating-point number.  Every finite binary float is
a dyadic rational, and no dyadic rational equals the exact price already
for mantissa 1 and exponent −1, so the value the source produces differs
from the exact price no matter how the float rounding goes.
-/
theorem C2_exact_semantics :
    exactPrice 1 (-1) = 1 / 10 ∧ ∀ q : ℚ, IsDyadic q → q ≠ exactPrice 1 (-1) := by
  have h10 : exactPrice 1 (-1) = 1 / 10 := by
    norm_num [exactPrice]
  refine ⟨h10, ?_⟩
  rintro q ⟨m, e, rfl⟩ hq
  rw [h10] at hq
  have h2 : ((2 : ℚ) ^ e) ≠ 0 := by positivity
  have hq2 : (m : ℚ) * 10 = 2 ^ e := by
    field_simp at hq
    linarith
  have hz : (m * 10 : ℤ) = 2 ^ e := by exact_mod_cast hq2
  have h5 : (5 : ℤ) ∣ 2 ^ e := ⟨m * 2, by omega⟩
  have hp : Prime (5 : ℤ) := by norm_num
  have h52 : (5 : ℤ) ∣ 2 := hp.dvd_of_dvd_pow h5
  norm_num at h52

/-- Witness for C2: the actual binary64 value of Python's `1 * (10 ** -1)`. -/
theorem C2_exact_semantics_witness :
    IsDyadic ((3602879701896397 : ℚ) / 2 ^ 55) ∧
    (3602879701896397 : ℚ) / 2 ^ 55 ≠ exactPrice 1 (-1) :=
  ⟨⟨3602879701896397, 55, by norm_num⟩,
   C2_exact_semantics.2 _ ⟨3602879701896397, 55, by norm_num⟩⟩

/--
C3 counterexample: the claim states that any sample whose processing raises
an exception is excluded from both counts.  For this one-sample batch the
two fetches succeed, the direction matches `bd`, and the display-line
construction then raises (the sample's `bo` is 0, so `(bc-bo)/bo` divides
by zero): the except clause runs — the error log records index 0 and no
result line is produced — yet the final state has `m = 1`, so the raising
sample is counted and `t = m + x = 1`, not 0.
-/
theorem C3_counts_counterexample :
    runLoop 0 initState [⟨some 0, some 0, some 1, some "UP", some 2, some 100, some 101⟩] =
      some ⟨1, 0, [], [0]⟩ := by
  decide

/--
C3 (amended): for a batch whose samples all carry a `ts` key, the loop
finishes and the final match count equals the number of samples that reach
the counter update (both fetches and the `bd` lookup succeed) with computed
direction equal to `bd` exactly; the mismatch count equals the number that
reach the update and differ.  A sample that raises before the counter
update is excluded from both counts and processing continues; a sample that
raises after the update (while building its display line) remains counted.
-/
theorem C3_counts_theorem (samples : List Sample)
    (h : ∀ s ∈ samples, s.ts.isSome = true) :
    (runLoop 0 initState samples).map (fun st => (st.m, st.x)) =
      some (samples.countP isMatch,
            samples.countP (fun s => reachesCount s && !isMatch s)) := by
  obtain ⟨st, h1, h2, h3⟩ := runLoop_counts samples 0 initState h
  rw [h1]
  simp [h2, h3, initState]

/-- Witness for C3 on a batch with a match, a fetch failure, and a mismatch. -/
theorem C3_counts_theorem_witness :
    (runLoop 0 initState
        [⟨some 0, some 1, some 2, some "UP", some 3, some 100, some 101⟩,
         ⟨some 1, some 1, some 2, some "UP", some 3, none, some 101⟩,
         ⟨some 2, some 1, some 2, some "DN", some 3, some 100, some 101⟩]).map
        (fun st => (st.m, st.x)) =
      some (List.countP isMatch
        [⟨some 0, some 1, some 2, some "UP", some 3, some 100, some 101⟩,
         ⟨some 1, some 1, some 2, some "UP", some 3, none, some 101⟩,
         ⟨some 2, some 1, some 2, some "DN", some 3, some 100, some 101⟩],
        List.countP (fun s => reachesCount s && !isMatch s)
        [⟨some 0, some 1, some 2, some "UP", some 3, some 100, some 101⟩,
         ⟨some 1, some 1, some 2, some "UP", some 3, none, some 101⟩,
         ⟨some 2, some 1, some 2, some "DN", some 3, some 100, some 101⟩]) :=
  C3_counts_theorem _ (by decide)

/--
C7: if every sample of the batch fails before the counter update (so
`t = m + x = 0`), then the summary's percentage `m/t*100` (source line 44)
is a division by zero: the summary is not produced, and the whole run
aborts with `none` — the error is not suppressed and no summary is
reported.
-/
theorem C7_summary_div_zero (samples : List Sample)
    (hts : ∀ s ∈ samples, s.ts.isSome = true)
    (hfail : ∀ s ∈ samples, reachesCount s = false) :
    (runLoop 0 initState samples).map (fun st => (st.m + st.x, summary st)) =
      some (0, none) ∧
    runProgram samples = none := by
  obtain ⟨st, h1, h2, h3⟩ := runLoop_counts samples 0 initState hts
  have hmm : samples.countP isMatch = 0 := by
    rw [List.countP_eq_zero]
    exact fun s hs => by simp [isMatch_eq_false s (hfail s hs)]
  have hxx : samples.countP (fun s => reachesCount s && !isMatch s) = 0 := by
    rw [List.countP_eq_zero]
    exact fun s hs => by simp [hfail s hs]
  have hm0 : st.m = 0 := by simp [h2, hmm, initState]
  have hx0 : st.x = 0 := by simp [h3, hxx, initState]
  have hsum : summary st = none := by simp [summary, hm0, hx0]
  exact ⟨by simp [h1, hm0, hx0, hsum], by simp [runProgram, h1, hsum]⟩

/-- Witness for C7: a one-sample batch whose only sample's fetch fails. -/
theorem C7_summary_div_zero_witness :
    (runLoop 0 initState [⟨some 0, none, none, none, none, none, none⟩]).map
        (fun st => (st.m + st.x, summary st)) = some (0, none) ∧
    runProgram [⟨some 0, none, none, none, none, none, none⟩] = none :=
  C7_summary_div_zero _ (by decide) (by decide)

end PythCompare

namespace Redeem

/--
C4: with at least one positional argument but one or more of the eight
required credentials absent or empty, `main` emits a single ERROR object
whose message lists exactly the missing names (the filter of
`requiredVars` by falsiness in the environment, joined with commas), exits
with code 1, and its result is independent of every external-call outcome:
the check (source lines 42–50) precedes the `try` block, hence every
SDK import and every network call.
-/
theorem C4_env_check (argv : List String) (env : String → Option String) (w w2 : World)
    (hargv : 2 ≤ argv.length)
    (hmiss : requiredVars.filter (fun v => !truthy (env v)) ≠ []) :
    main argv env w =
      ([[("status", "ERROR"),
         ("message", "Missing env vars: " ++
            String.intercalate ", " (requiredVars.filter (fun v => !truthy (env v))))]], 1) ∧
    main argv env w = main argv env w2 := by
  have h2 : ¬ argv.length < 2 := by omega
  constructor <;> simp [main, h2, hmiss]

/-- Witness for C4: an empty environment and two unrelated worlds. -/
theorem C4_env_check_witness :
    main ["redeem.py", "0xabc"] (fun _ => none) w0 =
      ([[("status", "ERROR"),
         ("message", "Missing env vars: " ++
            String.intercalate ", "
              (requiredVars.filter (fun v => !truthy ((fun _ => none) v))))]], 1) ∧
    main ["redeem.py", "0xabc"] (fun _ => none) w0 =
      main ["redeem.py", "0xabc"] (fun _ => none) wRes := by
  exact C4_env_check ["redeem.py", "0xabc"] (fun _ => none) w0 wRes (by decide) (by decide)

/--
C5: with valid arguments and a complete environment, an exception raised by
the resolution-status query yields an ERROR object (message only, no
traceback field) and exit code 0, whereas an exception anywhere else in the
main `try` block — the SDK imports and client constructions, or the redeem
call — yields an ERROR object that includes the traceback field, and exit
code 1.
-/
theorem C5_error_paths (argv : List String) (env : String → Option String) (w : World)
    (hargv : 2 ≤ argv.length)
    (henv : requiredVars.filter (fun v => !truthy (env v)) = []) :
    (∀ e, w.setup = .ok () → w.isResolved = .error e →
       main argv env w =
         ([[("status", "ERROR"), ("message", "Failed to check resolution: " ++ e)]], 0)) ∧
    (∀ e, w.setup = .error e →
       main argv env w =
         ([[("status", "ERROR"), ("message", e), ("traceback", w.tbText)]], 1)) ∧
    (∀ e, w.setup = .ok () → w.isResolved = .ok true →
       (∀ r, w.redeemable = .ok r → (r.isEmpty || r.all fun p => p.2 == 0) = false) →
       w.redeemResult = .error e →
       main argv env w =
         ([[("status", "ERROR"), ("message", e), ("traceback", w.tbText)]], 1)) := by
  have h2 : ¬ argv.length < 2 := by omega
  refine ⟨?_, ?_, ?_⟩
  · intro e hs hr
    simp [main, h2, henv, hs, hr]
  · intro e hs
    simp [main, h2, henv, hs]
  · intro e hs hr hbal hre
    cases hrd : w.redeemable with
    | error e2 => simp [main, h2, henv, hs, hr, hrd, redeemStep, hre]
    | ok r => simp [main, h2, henv, hs, hr, hrd, hbal r hrd, redeemStep, hre]

/-- Witness for C5: the three error paths at concrete worlds. -/
theorem C5_error_paths_witness :
    main ["redeem.py", "0xabc"] envAll wRes =
      ([[("status", "ERROR"), ("message", "Failed to check resolution: " ++ "boom")]], 0) ∧
    main ["redeem.py", "0xabc"] envAll wSetup =
      ([[("status", "ERROR"), ("message", "imp"), ("traceback", wSetup.tbText)]], 1) ∧
    main ["redeem.py", "0xabc"] envAll wRedeem =
      ([[("status", "ERROR"), ("message", "redeemfail"), ("traceback", wRedeem.tbText)]], 1) :=
  by
  exact ⟨(C5_error_paths _ envAll wRes (by decide) (by decide)).1 "boom" rfl rfl,
    (C5_error_paths _ envAll wSetup (by decide) (by decide)).2.1 "imp" rfl,
    (C5_error_paths _ envAll wRedeem (by decide) (by decide)).2.2 "redeemfail" rfl rfl
      (fun r hr => Except.noConfusion hr) rfl⟩

/--
C6: after the condition is reported resolved, if the balance query succeeds
and every returned balance entry is zero, the invoker emits NO_BALANCE and
exits with code 0 whatever the redeem call would have produced — redeem is
not invoked; if the balance query itself raises, the error is swallowed and
execution proceeds directly to the redeem step.
-/
theorem C6_balance_paths (argv : List String) (env : String → Option String) (w : World)
    (hargv : 2 ≤ argv.length)
    (henv : requiredVars.filter (fun v => !truthy (env v)) = [])
    (hs : w.setup = .ok ()) (hr : w.isResolved = .ok true) :
    (∀ r, w.redeemable = .ok r → (r.all fun p => p.2 == 0) = true →
       ∀ rr, main argv env { w with redeemResult := rr } =
         ([[("status", "NO_BALANCE"), ("message", "No redeemable balance")]], 0)) ∧
    (∀ e, w.redeemable = .error e → main argv env w = redeemStep w) := by
  have h2 : ¬ argv.length < 2 := by omega
  constructor
  · intro r hrr hz rr
    simp [main, h2, henv, hs, hr, hrr, hz]
  · intro e he
    simp [main, h2, henv, hs, hr, he]

/-- Witness for C6: a zero-balance world and a raising balance query. -/
theorem C6_balance_paths_witness :
    main ["redeem.py", "0xabc"] envAll { wZero with redeemResult := .error "boom" } =
      ([[("status", "NO_BALANCE"), ("message", "No redeemable balance")]], 0) ∧
    main ["redeem.py", "0xabc"] envAll wBalErr = redeemStep wBalErr :=
  by
  exact ⟨(C6_balance_paths _ envAll wZero (by decide) (by decide) rfl rfl).1
      [(0, 0), (1, 0)] rfl (by decide) (.error "boom"),
    (C6_balance_paths _ envAll wBalErr (by decide) (by decide) rfl rfl).2 "balfail" rfl⟩

/--
C8: the `--neg-risk` flag is parsed (source line 39: `"--neg-risk" in
sys.argv`) but never read afterwards; in particular `service.redeem`
(line 114) is invoked identically with or without it.  For every
environment and every outcome of the external calls, the observable
behaviour — the printed JSON objects and the exit code — is therefore the
same with the flag as without it, contrary to the claim that some
invocation with identical condition identifier, environment and
external-call results behaves differently.
-/
theorem C8_flag_unused :
    ∀ (env : String → Option String) (w : World),
      main ["redeem.py", "0xabc", "--neg-risk"] env w =
        main ["redeem.py", "0xabc"] env w :=
  fun _ _ => rfl

/--
C9: on every terminating path of the Redemption Invoker — usage error,
missing configuration, setup error, resolution-check error, NOT_RESOLVED,
NO_BALANCE, SUCCESS, redeem error — exactly one JSON object is written to
standard output.
-/
theorem C9_single_output (argv : List String) (env : String → Option String) (w : World) :
    (main argv env w).1.length = 1 := by
  rcases w with ⟨setup, res, red, rr, tb⟩
  by_cases h2 : argv.length < 2
  · simp [main, h2]
  · by_cases hm : requiredVars.filter (fun v => !truthy (env v)) ≠ []
    · simp [main, h2, hm]
    · cases setup with
      | error e => simp [main, h2, hm]
      | ok u =>
        cases u
        cases res with
        | error e => simp [main, h2, hm]
        | ok b =>
          cases b
          · simp [main, h2, hm]
          · cases red with
            | error e => cases rr <;> simp [main, h2, hm, redeemStep]
            | ok r =>
              by_cases hz : (r.isEmpty || r.all fun p => p.2 == 0) = true
              · simp [main, h2, hm, hz]
              · cases rr <;> simp [main, h2, hm, hz, redeemStep]

/--
C10: whenever the redeem call returns a mapping without raising, the
invoker reports SUCCESS with exit code 0; each of the three transaction
fields is read with `.get(key, "")`, so a key absent from the mapping is
reported as the empty string rather than causing an ERROR outcome.
-/
theorem C10_success_fields (argv : List String) (env : String → Option String) (w : World)
    (d : List (String × String))
    (hargv : 2 ≤ argv.length)
    (henv : requiredVars.filter (fun v => !truthy (env v)) = [])
    (hs : w.setup = .ok ()) (hr : w.isResolved = .ok true)
    (hbal : ∀ r, w.redeemable = .ok r → (r.isEmpty || r.all fun p => p.2 == 0) = false)
    (hred : w.redeemResult = .ok d) :
    main argv env w =
      ([[("status", "SUCCESS"),
         ("tx_id", dictGet d "transactionID"),
         ("tx_hash", dictGet d "transactionHash"),
         ("state", dictGet d "state"),
         ("message", "Redeem executed successfully")]], 0) ∧
    (∀ k, d.find? (fun p => p.1 == k) = none → dictGet d k = "") := by
  have h2 : ¬ argv.length < 2 := by omega
  constructor
  · cases hrd : w.redeemable with
    | error e => simp [main, h2, henv, hs, hr, hrd, redeemStep, hred]
    | ok r => simp [main, h2, henv, hs, hr, hrd, hbal r hrd, redeemStep, hred]
  · intro k hk
    simp [dictGet, hk]

/-- Witness for C10: a returned mapping with none of the three keys. -/
theorem C10_success_fields_witness :
    main ["redeem.py", "0xabc"] envAll wEmptyMap =
      ([[("status", "SUCCESS"),
         ("tx_id", dictGet [] "transactionID"),
         ("tx_hash", dictGet [] "transactionHash"),
         ("state", dictGet [] "state"),
         ("message", "Redeem executed successfully")]], 0) ∧
    dictGet ([] : List (String × String)) "transactionID" = "" :=
  by
  exact ⟨(C10_success_fields ["redeem.py", "0xabc"] envAll wEmptyMap [] (by decide) (by decide)
      rfl rfl (fun r hr => Except.noConfusion hr) rfl).1,
    (C10_success_fields ["redeem.py", "0xabc"] envAll wEmptyMap [] (by decide) (by decide)
      rfl rfl (fun r hr => Except.noConfusion hr) rfl).2 "transactionID" rfl⟩

end Redeem
